import Mathlib

/-!
Verification of the macro-monitor nutrient resolution pipeline.

JavaScript numbers are idealized as exact rationals (`ℚ`); `NaN`/missing
numeric values are modelled as `Option.none` (the sources route every such
value through `Number.isFinite` guards, so `none` is exactly the
"non-finite or absent" case).  `Math.round` in JavaScript rounds half-up
toward `+∞`, which coincides with Mathlib's `round` on `ℚ`.

Sources embedded here:
* `ParseJs`     — `pages/api/parse.js` (the named variant);
* `P1`          — `src/unnamed/part_001`; the functions cited from
                  `src/unnamed/part_002` (`sumItems`, `pickBestFood`,
                  `nutrientsPer100g`, `scale`, `estimateGrams`, handler
                  loop) are textually identical in both files up to
                  comments, so one embedding covers both;
* `NormalizeJs` — `lib/normalize.js`;
* `P4`          — `src/unnamed/part_004` (dashboard page: `sum`,
                  `netCarbs`, `warns`).
* `Spec`        — definitions following the wording of the claims (used
                  only to compare against the source embeddings).
-/

/-- JS `Math.round(x*10)/10` (the `round1`/`r1` helper present in every
variant): round to one decimal place, halves toward `+∞`. -/
def jsRound1 (x : ℚ) : ℚ := ((round (x * 10) : ℤ) : ℚ) / 10

/-- JS `Math.round(x)` (the `round0`/`ri` helper): round to the nearest
integer, halves toward `+∞`. -/
def jsRound0 (x : ℚ) : ℚ := ((round x : ℤ) : ℚ)

/-- `clampNumber(n, fallback)` / `num(x, d)`: a finite number passes
through, a non-finite or missing one becomes the fallback. -/
def clampNumber (n : Option ℚ) (fallback : ℚ) : ℚ := n.getD fallback

/-- JS `x || d` on a number already known finite: `0` is falsy. -/
def jsOrQ (x d : ℚ) : ℚ := if x = 0 then d else x

/-- JS `s || d` on a string: the empty string is falsy. -/
def jsOrStr (s d : String) : String := if s = "" then d else s

/-- JS `String.prototype.includes` / `/pat/.test(s)`: substring test. -/
def strIncludes (s pat : String) : Bool := decide (List.IsInfix pat.data s.data)

/-- JS `String.prototype.toLowerCase` (ASCII suffices for every literal the
sources compare against). -/
def strLower (s : String) : String := ⟨s.data.map Char.toLower⟩

/-- Whitespace recognized by `String.prototype.trim` (ASCII portion). -/
def isSpaceChar (c : Char) : Bool := c = ' ' ∨ c = '\t' ∨ c = '\n' ∨ c = '\r'

/-- JS `String.prototype.trim`. -/
def strTrim (s : String) : String :=
  ⟨((s.data.dropWhile isSpaceChar).reverse.dropWhile isSpaceChar).reverse⟩

/-- `normStr(s)` from `pages/api/parse.js`: `String(s || "").trim()`. -/
def normStr (s : Option String) : String := strTrim (s.getD "")

/-- The fixed-shape eight-field `NutrientProfile` of the data model. -/
structure Nutrients where
  calories : ℚ
  protein : ℚ
  fat : ℚ
  carbs : ℚ
  fiber : ℚ
  sodium : ℚ
  potassium : ℚ
  magnesium : ℚ
deriving DecidableEq, Repr

/-- `emptyNutrients()` / the zero object `Z` — every field defaults to 0. -/
def emptyNutrients : Nutrients :=
  { calories := 0, protein := 0, fat := 0, carbs := 0
    fiber := 0, sodium := 0, potassium := 0, magnesium := 0 }

/-- Field-wise addition (the body of the `sumItems`/`sum` loops). -/
def addNutrients (a b : Nutrients) : Nutrients :=
  { calories := a.calories + b.calories, protein := a.protein + b.protein
    fat := a.fat + b.fat, carbs := a.carbs + b.carbs, fiber := a.fiber + b.fiber
    sodium := a.sodium + b.sodium, potassium := a.potassium + b.potassium
    magnesium := a.magnesium + b.magnesium }

/-- One entry of a food-detail record's `foodNutrients` list, carrying the
fields the two extraction variants read: `nutrient.id`, `nutrient.name`,
`nutrient.unitName` and `amount` (`none` = missing or non-finite). -/
structure FoodNutrient where
  nutrientId : Option ℤ
  nutrientName : String
  nutrientUnitName : String
  amount : Option ℚ
deriving DecidableEq, Repr

/-- A food-detail record as consumed by the core: a nutrient-entry list and
optionally a serving size with its unit. -/
structure FoodDetail where
  servingSize : Option ℚ
  servingSizeUnit : Option String
  foodNutrients : List FoodNutrient
deriving DecidableEq, Repr

namespace ParseJs
/-! Embedding of `pages/api/parse.js`. -/

def OZ_TO_G : ℚ := 28.349523125
def LB_TO_G : ℚ := 453.59237

/-- `unitToGrams(quantity, unit)` (lines 36–50).  `quantity = none` models a
non-finite input (clamped to 0); the JS guard `if (!q) return 0` fires
exactly when the clamped quantity equals 0. -/
def unitToGrams (quantity : Option ℚ) (unit : String) : ℚ :=
  let q := clampNumber quantity 0
  let u := strLower (strTrim unit)
  if q = 0 then 0
  else if u = "g" ∨ u = "gram" ∨ u = "grams" then q
  else if u = "kg" ∨ u = "kilogram" ∨ u = "kilograms" then q * 1000
  else if u = "oz" ∨ u = "ounce" ∨ u = "ounces" then q * OZ_TO_G
  else if u = "lb" ∨ u = "pound" ∨ u = "pounds" then q * LB_TO_G
  else if u = "mg" then q / 1000
  else 0

/-- The `NUTRIENT_IDS` table (FoodData Central numeric identifiers). -/
def idCalories : ℤ := 1008
def idProtein : ℤ := 1003
def idFat : ℤ := 1004
def idCarbs : ℤ := 1005
def idFiber : ℤ := 1079
def idSodium : ℤ := 1093
def idPotassium : ℤ := 1092
def idMagnesium : ℤ := 1090

/-- Loop body of `extractNutrientsFromFoodDetails`: skip a non-finite
amount, otherwise assign the amount to the field whose numeric id matches
(an `else if` chain; unmatched ids fall through unchanged). -/
def extractStep (out : Nutrients) (fn : FoodNutrient) : Nutrients :=
  match fn.amount with
  | none => out
  | some amt =>
    if fn.nutrientId = some idCalories then { out with calories := amt }
    else if fn.nutrientId = some idProtein then { out with protein := amt }
    else if fn.nutrientId = some idFat then { out with fat := amt }
    else if fn.nutrientId = some idCarbs then { out with carbs := amt }
    else if fn.nutrientId = some idFiber then { out with fiber := amt }
    else if fn.nutrientId = some idSodium then { out with sodium := amt }
    else if fn.nutrientId = some idPotassium then { out with potassium := amt }
    else if fn.nutrientId = some idMagnesium then { out with magnesium := amt }
    else out

/-- `extractNutrientsFromFoodDetails(foodDetails)` (lines 248–269). -/
def extractNutrientsFromFoodDetails (foodDetails : FoodDetail) : Nutrients :=
  foodDetails.foodNutrients.foldl extractStep emptyNutrients

/-- `scaleNutrients(base, factor)` (lines 271–283): every field multiplied
by the factor, no rounding here. -/
def scaleNutrients (base : Nutrients) (factor : ℚ) : Nutrients :=
  { calories := base.calories * factor, protein := base.protein * factor
    fat := base.fat * factor, carbs := base.carbs * factor
    fiber := base.fiber * factor, sodium := base.sodium * factor
    potassium := base.potassium * factor, magnesium := base.magnesium * factor }

/-- The rounding applied to the scaled profile in `nutrientsForItemViaUsda`
(lines 321–328): nearest integer for calories/sodium/potassium/magnesium,
one decimal for protein/fat/carbs/fiber. -/
def roundScaled (s : Nutrients) : Nutrients :=
  { calories := jsRound0 s.calories, protein := jsRound1 s.protein
    fat := jsRound1 s.fat, carbs := jsRound1 s.carbs, fiber := jsRound1 s.fiber
    sodium := jsRound0 s.sodium, potassium := jsRound0 s.potassium
    magnesium := jsRound0 s.magnesium }

/-- Mass determination of `nutrientsForItemViaUsda` (lines 299–312):
`unitToGrams` first; if it yields 0, fall back to the USDA serving size
when its unit passes the gram test (`ssUnit.includes("g") || ssUnit === "g"
|| ssUnit === "gram" || ssUnit === "grams"`); otherwise `quantity * 100`. -/
def determineGrams (quantity : ℚ) (unit : String) (details : FoodDetail) : ℚ :=
  let grams := unitToGrams (some quantity) unit
  if grams = 0 then
    let ss := clampNumber details.servingSize 0
    let ssUnit := strLower (normStr details.servingSizeUnit)
    if ss ≠ 0 ∧ (strIncludes ssUnit "g" ∨ ssUnit = "g" ∨ ssUnit = "gram" ∨ ssUnit = "grams")
    then quantity * ss
    else quantity * 100
  else grams

/-- A search hit as used by `nutrientsForItemViaUsda`: only `fdcId` is read
(`none` models a missing/undefined id). -/
structure SearchFood where
  fdcId : Option ℤ
deriving DecidableEq, Repr

/-- JS truthiness of `top?.fdcId`: present and nonzero. -/
def usableFdc (top : Option SearchFood) : Option ℤ :=
  match top with
  | none => none
  | some f =>
    match f.fdcId with
    | none => none
    | some v => if v = 0 then none else some v

/-- A parsed item as `nutrientsForItemViaUsda` receives it. -/
structure PItem where
  name : String
  quantity : Option ℚ
  unit : Option String
deriving DecidableEq, Repr

/-- An output item: nutrients plus the `source` tag. -/
structure OutItem where
  name : String
  nutrients : Nutrients
  source : String
deriving DecidableEq, Repr

/-- `nutrientsForItemViaUsda(item)` (lines 285–331) with the two outbound
calls supplied as oracle arguments: `top` is the search result,
`details` the fetched detail record (only read on the matched path). -/
def nutrientsForItemViaUsda (top : Option SearchFood) (details : FoodDetail)
    (item : PItem) : OutItem :=
  let quantity := jsOrQ (clampNumber item.quantity 1) 1
  let unit := jsOrStr (normStr item.unit) "serving"
  match usableFdc top with
  | none => { name := item.name, nutrients := emptyNutrients, source := "usda:none" }
  | some _ =>
    let per100g := extractNutrientsFromFoodDetails details
    let grams := determineGrams quantity unit details
    let factor := grams / 100
    let scaled := scaleNutrients per100g factor
    { name := item.name, nutrients := roundScaled scaled, source := "usda" }

end ParseJs

namespace P1
/-! Embedding of `src/unnamed/part_001` (identical, for the cited
functions, to `src/unnamed/part_002`). -/

/-- `sumItems(items)` (lines 21–37): field-wise accumulation into the zero
object, then `round1` applied to every one of the eight fields. -/
def sumItems (items : List Nutrients) : Nutrients :=
  let z := items.foldl addNutrients emptyNutrients
  { calories := jsRound1 z.calories, protein := jsRound1 z.protein
    fat := jsRound1 z.fat, carbs := jsRound1 z.carbs, fiber := jsRound1 z.fiber
    sodium := jsRound1 z.sodium, potassium := jsRound1 z.potassium
    magnesium := jsRound1 z.magnesium }

/-- A search hit as scored by `pickBestFood`: `dataType`, the abbreviated
`foodNutrients` array (`none` when the field is not an array), `fdcId`. -/
structure Food where
  fdcId : Option ℤ
  dataType : String
  foodNutrients : Option (List FoodNutrient)
deriving DecidableEq, Repr

/-- `Array.isArray(f.foodNutrients) && f.foodNutrients.length > 0`. -/
def hasNutrientRows (f : Food) : Bool :=
  match f.foodNutrients with
  | some l => decide (0 < l.length)
  | none => false

/-- The candidate score of `pickBestFood` (lines 209–218). -/
def score (f : Food) : ℤ :=
  let dt := strLower f.dataType
  (if strIncludes dt "foundation" then 6 else 0)
  + (if strIncludes dt "sr" then 5 else 0)
  + (if strIncludes dt "survey" then 4 else 0)
  + (if strIncludes dt "branded" then 2 else 0)
  + (if hasNutrientRows f then 1 else 0)

/-- Stable insertion (descending by score): a later-arriving element is
placed after every earlier element of greater-or-equal score, exactly the
placement a stable `Array.prototype.sort` with comparator
`(a, b) => score(b) - score(a)` produces. -/
def insertByScore (f : Food) : List Food → List Food
  | [] => [f]
  | g :: gs => if score g ≤ score f then f :: g :: gs else g :: insertByScore f gs

/-- The sorted copy `foods.slice().sort((a, b) => score(b) - score(a))`. -/
def sortByScoreDesc : List Food → List Food
  | [] => []
  | f :: fs => insertByScore f (sortByScoreDesc fs)

/-- `pickBestFood(foods)` (lines 206–221): null on an empty list, else the
first element of the stably sorted copy. -/
def pickBestFood (foods : List Food) : Option Food :=
  (sortByScoreDesc foods).head?

/-- The per-100g record produced by `nutrientsPer100g`: a plain object
whose keys are only present when the corresponding nutrient was seen. -/
structure Per100 where
  energy_kcal : Option ℚ
  protein_g : Option ℚ
  fat_g : Option ℚ
  carbs_g : Option ℚ
  fiber_g : Option ℚ
  sodium_mg : Option ℚ
  potassium_mg : Option ℚ
  magnesium_mg : Option ℚ
deriving DecidableEq, Repr

/-- The empty object `{}` `nutrientsPer100g` starts from. -/
def emptyPer100 : Per100 :=
  { energy_kcal := none, protein_g := none, fat_g := none, carbs_g := none
    fiber_g := none, sodium_mg := none, potassium_mg := none, magnesium_mg := none }

/-- Loop body of `nutrientsPer100g` (lines 227–245): match on the
lowercased free-text nutrient name; energy in kJ divided by 4.184;
sodium/potassium/magnesium multiplied by 1000 unless the unit is `mg`;
non-finite amounts skipped.  The source uses independent `if` statements,
mirrored here by sequential updates. -/
def per100Step (out0 : Per100) (x : FoodNutrient) : Per100 :=
  let name := strLower x.nutrientName
  let unit := strLower x.nutrientUnitName
  match x.amount with
  | none => out0
  | some val =>
    let o1 := if name = "energy" then
      { out0 with energy_kcal := some (if unit = "kj" then val / 4.184 else val) } else out0
    let o2 := if name = "protein" then { o1 with protein_g := some val } else o1
    let o3 := if name = "total lipid (fat)" then { o2 with fat_g := some val } else o2
    let o4 := if name = "carbohydrate, by difference" then { o3 with carbs_g := some val } else o3
    let o5 := if name = "fiber, total dietary" then { o4 with fiber_g := some val } else o4
    let o6 := if name = "sodium, na" then
      { o5 with sodium_mg := some (if unit = "mg" then val else val * 1000) } else o5
    let o7 := if name = "potassium, k" then
      { o6 with potassium_mg := some (if unit = "mg" then val else val * 1000) } else o6
    let o8 := if name = "magnesium, mg" then
      { o7 with magnesium_mg := some (if unit = "mg" then val else val * 1000) } else o7
    o8

/-- `nutrientsPer100g(foodDetail)` (lines 223–248). -/
def nutrientsPer100g (foodDetail : FoodDetail) : Per100 :=
  foodDetail.foodNutrients.foldl per100Step emptyPer100

/-- `scale(per100, grams)` (lines 250–262): every field `(x || 0) * f` with
`f = grams / 100`, then `round1` — one decimal place for ALL eight fields,
the calorie/sodium/potassium/magnesium fields included. -/
def scale (per100 : Per100) (grams : ℚ) : Nutrients :=
  let f := grams / 100
  { calories := jsRound1 ((per100.energy_kcal.getD 0) * f)
    protein := jsRound1 ((per100.protein_g.getD 0) * f)
    fat := jsRound1 ((per100.fat_g.getD 0) * f)
    carbs := jsRound1 ((per100.carbs_g.getD 0) * f)
    fiber := jsRound1 ((per100.fiber_g.getD 0) * f)
    sodium := jsRound1 ((per100.sodium_mg.getD 0) * f)
    potassium := jsRound1 ((per100.potassium_mg.getD 0) * f)
    magnesium := jsRound1 ((per100.magnesium_mg.getD 0) * f) }

/-- A sanitized parsed item (`name`, `query`, `grams`, `count`, `unit`). -/
structure Item where
  name : String
  query : String
  grams : Option ℚ
  count : Option ℚ
  unit : Option String
deriving DecidableEq, Repr

/-- The `item.count || 1` read used in every `estimateGrams` branch. -/
def countOr1 (item : Item) : ℚ := jsOrQ (clampNumber item.count 0) 1

/-- The lowercased `String(item.query || item.name || "")` text that
`estimateGrams` matches keywords against. -/
def queryTextOf (item : Item) : String :=
  strLower (jsOrStr item.query (jsOrStr item.name ""))

/-- The lowercased `String(item.unit || "")` text of `estimateGrams`. -/
def unitTextOf (item : Item) : String := strLower (item.unit.getD "")

/-- `estimateGrams(item)` (lines 265–290).  Note: the tbsp branch tests
`"tbsp"` against the unit only and `"tablespoon"` against unit or query;
the spinach test reads the query text only. -/
def estimateGrams (item : Item) : ℚ :=
  if strIncludes (unitTextOf item) "egg" ∨ strIncludes (queryTextOf item) "egg"
    then 50 * countOr1 item
  else if strIncludes (unitTextOf item) "tbsp" ∨ strIncludes (unitTextOf item) "tablespoon"
      ∨ strIncludes (queryTextOf item) "tablespoon"
    then 15 * countOr1 item
  else if strIncludes (unitTextOf item) "cup" ∨ strIncludes (queryTextOf item) "cup" then
    (if strIncludes (queryTextOf item) "spinach"
      then 30 * countOr1 item else 245 * countOr1 item)
  else 100

/-- The handler's mass determination (line 336):
`const grams = it.grams ?? estimateGrams(it)`. -/
def massFor (it : Item) : ℚ := it.grams.getD (estimateGrams it)

/-- An output item of the handler loop: nutrients plus the optional
`note` field. -/
structure OutItem where
  name : String
  nutrients : Nutrients
  note : Option String
deriving DecidableEq, Repr

/-- The zero-valued output pushed on `!best?.fdcId` (lines 317–331). -/
def noMatchItem (it : Item) : OutItem :=
  { name := it.name, nutrients := emptyNutrients, note := some "No USDA match" }

/-- JS truthiness of `best?.fdcId`: best present with a nonzero id. -/
def usableFdcOf (best : Option Food) : Option ℤ :=
  match best with
  | none => none
  | some f =>
    match f.fdcId with
    | none => none
    | some v => if v = 0 then none else some v

/-- One iteration of the handler loop (lines 313–343) with the outbound
calls supplied as oracles: `search` maps an item to its hit list and
`details` maps an fdcId to the fetched detail record. -/
def resolveOne (search : Item → List Food) (details : ℤ → FoodDetail) (it : Item) : OutItem :=
  let best := pickBestFood (search it)
  match usableFdcOf best with
  | none => noMatchItem it
  | some fid =>
    let detail := details fid
    let per100 := nutrientsPer100g detail
    let grams := massFor it
    let scaled := scale per100 grams
    { name := it.name, nutrients := scaled, note := none }

/-- The full handler loop: every parsed item is resolved in order; a
no-candidate item contributes its zero entry and the loop continues. -/
def handlerItems (search : Item → List Food) (details : ℤ → FoodDetail)
    (items : List Item) : List OutItem :=
  items.map (resolveOne search details)

/-- The totals the handler responds with: `sumItems(outItems)`. -/
def handlerTotals (search : Item → List Food) (details : ℤ → FoodDetail)
    (items : List Item) : Nutrients :=
  sumItems ((handlerItems search details items).map (·.nutrients))

end P1

namespace NormalizeJs
/-! Embedding of `lib/normalize.js`. -/

/-- An item as `estimateGrams({name, qty, unit})` receives it. -/
structure NItem where
  name : Option String
  qty : Option ℚ
  unit : Option String
deriving DecidableEq, Repr

/-- `estimateGrams` from `lib/normalize.js` (lines 2–10): a different
estimator — converts g/oz units, knows egg/tbsp/tsp, and returns `null`
(not 100) when nothing matches. -/
def estimateGrams (it : NItem) : Option ℚ :=
  let q := jsOrQ (clampNumber it.qty 0) 1
  let u := strLower (it.unit.getD "")
  if u = "g" ∨ u = "gram" ∨ u = "grams" then some q
  else if u = "oz" ∨ u = "ounce" ∨ u = "ounces" then some (q * 28.3495)
  else if strIncludes (strLower (it.name.getD "")) "egg" then some (q * 50)
  else if u = "tbsp" ∨ u = "tablespoon" then some (q * 15)
  else if u = "tsp" ∨ u = "teaspoon" then some (q * 5)
  else none

end NormalizeJs

namespace P4
/-! Embedding of `src/unnamed/part_004` (dashboard page). -/

/-- `netCarbs(t)` (line 39): `Math.max(0, carbs - fiber)`. -/
def netCarbs (t : Nutrients) : ℚ := max 0 (t.carbs - t.fiber)

/-- `sum(items)` (lines 41–49): plain field-wise reduction from the zero
object, no rounding. -/
def sum (items : List Nutrients) : Nutrients :=
  items.foldl addNutrients emptyNutrients

/-- The three advisory messages of `warns` (lines 223–230), with the
numeric payloads the interpolated strings carry (`r1`-rounded); the string
formatting itself is presentation. -/
inductive Warning where
  | proteinLow (current deficit : ℚ)
  | netCarbsHigh (nc : ℚ)
  | netCarbsLow (nc : ℚ)
deriving DecidableEq, Repr

/-- `warns` (lines 223–230): sequential conditional pushes evaluated
against the day's totals and the number of logged items. -/
def warns (totals : Nutrients) (numItems : ℕ) : List Warning :=
  let nc := netCarbs totals
  (if totals.protein < 145 ∧ numItems > 2
    then [Warning.proteinLow (jsRound1 totals.protein) (jsRound1 (145 - totals.protein))] else [])
  ++ (if nc > 40 then [Warning.netCarbsHigh (jsRound1 nc)] else [])
  ++ (if nc > 0 ∧ nc < 30 then [Warning.netCarbsLow (jsRound1 nc)] else [])

end P4

namespace Spec
/-! Definitions that follow the wording of the claims (original or
amended), to be compared against the source embeddings above. -/

/-- C1's rounding rule as the claim words it: every field multiplied by
`grams / 100`, then rounded once — nearest integer for
calories/sodium/potassium/magnesium, one decimal for the rest. -/
def scaleResolved (per100 : Nutrients) (grams : ℚ) : Nutrients :=
  { calories := jsRound0 (per100.calories * (grams / 100))
    protein := jsRound1 (per100.protein * (grams / 100))
    fat := jsRound1 (per100.fat * (grams / 100))
    carbs := jsRound1 (per100.carbs * (grams / 100))
    fiber := jsRound1 (per100.fiber * (grams / 100))
    sodium := jsRound0 (per100.sodium * (grams / 100))
    potassium := jsRound0 (per100.potassium * (grams / 100))
    magnesium := jsRound0 (per100.magnesium * (grams / 100)) }

/-- C1 amended, `part_001` side: every field multiplied by `grams / 100`
and rounded once, but ALL eight fields to one decimal place. -/
def scaleAllOneDecimal (per100 : P1.Per100) (grams : ℚ) : Nutrients :=
  { calories := jsRound1 ((per100.energy_kcal.getD 0) * (grams / 100))
    protein := jsRound1 ((per100.protein_g.getD 0) * (grams / 100))
    fat := jsRound1 ((per100.fat_g.getD 0) * (grams / 100))
    carbs := jsRound1 ((per100.carbs_g.getD 0) * (grams / 100))
    fiber := jsRound1 ((per100.fiber_g.getD 0) * (grams / 100))
    sodium := jsRound1 ((per100.sodium_mg.getD 0) * (grams / 100))
    potassium := jsRound1 ((per100.potassium_mg.getD 0) * (grams / 100))
    magnesium := jsRound1 ((per100.magnesium_mg.getD 0) * (grams / 100)) }

/-- C2 amended: aggregation is the field-wise sum of the stored item
values with every one of the eight fields rounded once to one decimal
place at the end. -/
def aggregateOneDecimal (items : List Nutrients) : Nutrients :=
  { calories := jsRound1 ((items.map Nutrients.calories).sum)
    protein := jsRound1 ((items.map Nutrients.protein).sum)
    fat := jsRound1 ((items.map Nutrients.fat).sum)
    carbs := jsRound1 ((items.map Nutrients.carbs).sum)
    fiber := jsRound1 ((items.map Nutrients.fiber).sum)
    sodium := jsRound1 ((items.map Nutrients.sodium).sum)
    potassium := jsRound1 ((items.map Nutrients.potassium).sum)
    magnesium := jsRound1 ((items.map Nutrients.magnesium).sum) }

/-- C2 as stated: the aggregate rounding rule claimed — nearest integer
for calories/sodium/potassium/magnesium, one decimal for the rest,
applied to the field-wise sums. -/
def aggregateClaim (items : List Nutrients) : Nutrients :=
  { calories := jsRound0 ((items.map Nutrients.calories).sum)
    protein := jsRound1 ((items.map Nutrients.protein).sum)
    fat := jsRound1 ((items.map Nutrients.fat).sum)
    carbs := jsRound1 ((items.map Nutrients.carbs).sum)
    fiber := jsRound1 ((items.map Nutrients.fiber).sum)
    sodium := jsRound0 ((items.map Nutrients.sodium).sum)
    potassium := jsRound0 ((items.map Nutrients.potassium).sum)
    magnesium := jsRound0 ((items.map Nutrients.magnesium).sum) }

/-- C3 as stated: the claimed four-step mass precedence — explicit grams;
else the Unit Converter's nonzero result; else the detail record's serving
size × quantity when its unit is a gram unit; else the Mass Estimator
(whose result is passed in as `estimatorResult`). -/
def claimMassOrder (explicitGrams : Option ℚ) (quantity : ℚ) (unit : String)
    (details : FoodDetail) (estimatorResult : ℚ) : ℚ :=
  match explicitGrams with
  | some g => g
  | none =>
    let conv := ParseJs.unitToGrams (some quantity) unit
    if conv ≠ 0 then conv
    else
      match details.servingSize with
      | some ss =>
        let u := strLower (normStr details.servingSizeUnit)
        if u = "g" ∨ u = "gram" ∨ u = "grams" then quantity * ss else estimatorResult
      | none => estimatorResult

/-- C3 amended, `parse.js` side: Unit Converter result if nonzero; else
serving size × quantity when the serving-size unit string contains `"g"`;
else a flat `quantity * 100` (no explicit-grams step, no Mass Estimator). -/
def parseMassAmended (quantity : ℚ) (unit : String) (details : FoodDetail) : ℚ :=
  let conv := ParseJs.unitToGrams (some quantity) unit
  if conv ≠ 0 then conv
  else
    let ss := clampNumber details.servingSize 0
    if ss ≠ 0 ∧ strIncludes (strLower (normStr details.servingSizeUnit)) "g"
    then quantity * ss
    else quantity * 100

/-- C4 amended, `parse.js` side: a tracked field holds the amount of the
LAST nutrient entry whose numeric id matches and whose amount is finite
(later entries overwrite earlier ones), with no unit conversion; ids
outside the tracked set are ignored and fields default to 0. -/
def lastById (i : ℤ) (fns : List FoodNutrient) : ℚ :=
  match fns.reverse.find? (fun fn => fn.amount.isSome && decide (fn.nutrientId = some i)) with
  | some fn => fn.amount.getD 0
  | none => 0

/-- The eight tracked fields assembled by numeric id (C4 amended). -/
def extractById (d : FoodDetail) : Nutrients :=
  { calories := lastById ParseJs.idCalories d.foodNutrients
    protein := lastById ParseJs.idProtein d.foodNutrients
    fat := lastById ParseJs.idFat d.foodNutrients
    carbs := lastById ParseJs.idCarbs d.foodNutrients
    fiber := lastById ParseJs.idFiber d.foodNutrients
    sodium := lastById ParseJs.idSodium d.foodNutrients
    potassium := lastById ParseJs.idPotassium d.foodNutrients
    magnesium := lastById ParseJs.idMagnesium d.foodNutrients }

/-- C4 amended, `part_001` side: a field holds the converted amount of the
LAST finite-amount entry whose lowercased free-text name matches, else is
absent; `conv` applies that field's unit normalization. -/
def lastByName (nm : String) (conv : FoodNutrient → ℚ → ℚ) (fns : List FoodNutrient) : Option ℚ :=
  match fns.reverse.find? (fun fn => fn.amount.isSome && decide (strLower fn.nutrientName = nm)) with
  | some fn => some (conv fn (fn.amount.getD 0))
  | none => none

/-- Energy normalization of the `part_001` extractor: kJ divided by 4.184. -/
def kcalConv (fn : FoodNutrient) (v : ℚ) : ℚ :=
  if strLower fn.nutrientUnitName = "kj" then v / 4.184 else v

/-- Electrolyte normalization of the `part_001` extractor: ×1000 whenever
the reported unit is not `mg`. -/
def mgConv (fn : FoodNutrient) (v : ℚ) : ℚ :=
  if strLower fn.nutrientUnitName = "mg" then v else v * 1000

/-- Gram-valued nutrients are taken as-is. -/
def gConv (_fn : FoodNutrient) (v : ℚ) : ℚ := v

/-- The per-100g record assembled by free-text name (C4 amended). -/
def extractByName (d : FoodDetail) : P1.Per100 :=
  { energy_kcal := lastByName "energy" kcalConv d.foodNutrients
    protein_g := lastByName "protein" gConv d.foodNutrients
    fat_g := lastByName "total lipid (fat)" gConv d.foodNutrients
    carbs_g := lastByName "carbohydrate, by difference" gConv d.foodNutrients
    fiber_g := lastByName "fiber, total dietary" gConv d.foodNutrients
    sodium_mg := lastByName "sodium, na" mgConv d.foodNutrients
    potassium_mg := lastByName "potassium, k" mgConv d.foodNutrients
    magnesium_mg := lastByName "magnesium, mg" mgConv d.foodNutrients }

/-- C5 amended: the conversion-factor table — ×1 for gram variants, ×1000
for kilogram variants, ×28.349523125 for ounce variants, ×453.59237 for
pound variants, ×0.001 for `mg`; no factor for anything else. -/
def unitFactor (u : String) : Option ℚ :=
  if u = "g" ∨ u = "gram" ∨ u = "grams" then some 1
  else if u = "kg" ∨ u = "kilogram" ∨ u = "kilograms" then some 1000
  else if u = "oz" ∨ u = "ounce" ∨ u = "ounces" then some ParseJs.OZ_TO_G
  else if u = "lb" ∨ u = "pound" ∨ u = "pounds" then some ParseJs.LB_TO_G
  else if u = "mg" then some (1 / 1000)
  else none

/-- C5 amended: 0 exactly when the quantity is non-finite or zero or the
trimmed, lowercased unit has no table entry; otherwise quantity × factor
(a negative quantity passes through the table unchanged). -/
def toGramsAmended (q : Option ℚ) (u : String) : ℚ :=
  match q with
  | none => 0
  | some qv =>
    if qv = 0 then 0
    else
      match unitFactor (strLower (strTrim u)) with
      | some k => qv * k
      | none => 0

/-- C7: the earliest maximal-score candidate, as the claim words the
stable tie-break — keep the earlier candidate unless a strictly greater
score appears later. -/
def bestOf : List P1.Food → Option P1.Food
  | [] => none
  | f :: fs =>
    match bestOf fs with
    | none => some f
    | some b => if P1.score f < P1.score b then some b else some f

end Spec

/-! Sample inputs used by witnesses and counterexamples. -/

/-- A parsed "3 eggs" item (no explicit grams). -/
def eggItem : P1.Item :=
  { name := "eggs", query := "egg", grams := none, count := some 3, unit := some "egg" }

/-- An item whose query text contains "tbsp" but whose unit does not. -/
def tbspItem : P1.Item :=
  { name := "butter", query := "tbsp butter", grams := none, count := some 2, unit := none }

/-- A "2 oz" item without explicit grams. -/
def ozItem : P1.Item :=
  { name := "cheese", query := "cheddar", grams := none, count := some 2, unit := some "oz" }

/-- A detail record with no serving size and no nutrient rows. -/
def bareDetail : FoodDetail :=
  { servingSize := none, servingSizeUnit := none, foodNutrients := [] }

/-- An energy entry reported in kilojoules under the stable id 1008. -/
def kjEntry : FoodNutrient :=
  { nutrientId := some 1008, nutrientName := "Energy", nutrientUnitName := "kJ"
    amount := some (2092 / 5) }

/-- A protein entry carrying the stable id 1003 but a non-standard name. -/
def oddNameProtein : FoodNutrient :=
  { nutrientId := some 1003, nutrientName := "Protein X", nutrientUnitName := "g"
    amount := some 10 }

/-- A per-100g record whose only nutrient is 0.25 g carbs. -/
def quarterCarbs : P1.Per100 :=
  { energy_kcal := none, protein_g := none, fat_g := none, carbs_g := some (1 / 4)
    fiber_g := none, sodium_mg := none, potassium_mg := none, magnesium_mg := none }

/-- A branded candidate with nutrient rows. -/
def brandedFood : P1.Food :=
  { fdcId := some 1, dataType := "Branded"
    foodNutrients := some [{ nutrientId := none, nutrientName := "", nutrientUnitName := "", amount := some 1 }] }

/-- A foundation candidate with nutrient rows. -/
def foundationFood : P1.Food :=
  { fdcId := some 2, dataType := "Foundation"
    foodNutrients := some [{ nutrientId := none, nutrientName := "", nutrientUnitName := "", amount := some 1 }] }

/-- An SR Legacy candidate with nutrient rows. -/
def srFood : P1.Food :=
  { fdcId := some 3, dataType := "SR Legacy"
    foodNutrients := some [{ nutrientId := none, nutrientName := "", nutrientUnitName := "", amount := some 1 }] }

/-- A second branded candidate, distinguishable from `brandedFood`. -/
def brandedFood2 : P1.Food :=
  { fdcId := some 9, dataType := "Branded"
    foodNutrients := some [{ nutrientId := none, nutrientName := "", nutrientUnitName := "", amount := some 1 }] }

/-- A per-100g record carrying exactly 1 kcal per 100 g. -/
def oneKcal : P1.Per100 :=
  { energy_kcal := some 1, protein_g := none, fat_g := none, carbs_g := none
    fiber_g := none, sodium_mg := none, potassium_mg := none, magnesium_mg := none }

/-- A stored item whose calorie total is 1.5. -/
def calItem : Nutrients :=
  { calories := 3 / 2, protein := 0, fat := 0, carbs := 0
    fiber := 0, sodium := 0, potassium := 0, magnesium := 0 }

/-- A detail record whose single nutrient entry is `kjEntry`. -/
def kjDetail : FoodDetail :=
  { servingSize := none, servingSizeUnit := none, foodNutrients := [kjEntry] }

/-- A detail record whose single nutrient entry is `oddNameProtein`. -/
def oddDetail : FoodDetail :=
  { servingSize := none, servingSizeUnit := none, foodNutrients := [oddNameProtein] }

/-- A generic "1 serving of snack" item for the normalize.js estimator. -/
def snackItem : NormalizeJs.NItem :=
  { name := some "snack", qty := some 1, unit := some "serving" }

attribute [ext] Nutrients P1.Per100

/-! Helper lemmas. -/

theorem jsRound1_zero : jsRound1 0 = 0 := by
  simp [jsRound1]

/-- The `sumItems`/`sum` accumulation loop computes the field-wise sums. -/
theorem foldl_addNutrients (l : List Nutrients) : ∀ acc : Nutrients,
    l.foldl addNutrients acc =
      { calories := acc.calories + (l.map Nutrients.calories).sum
        protein := acc.protein + (l.map Nutrients.protein).sum
        fat := acc.fat + (l.map Nutrients.fat).sum
        carbs := acc.carbs + (l.map Nutrients.carbs).sum
        fiber := acc.fiber + (l.map Nutrients.fiber).sum
        sodium := acc.sodium + (l.map Nutrients.sodium).sum
        potassium := acc.potassium + (l.map Nutrients.potassium).sum
        magnesium := acc.magnesium + (l.map Nutrients.magnesium).sum } := by
  induction l with
  | nil => intro acc; simp
  | cons a l ih => intro acc; simp [List.foldl_cons, ih, addNutrients, add_assoc]

/-- A left fold whose step overwrites the observed component exactly on
entries satisfying `p` ends at the value of the LAST such entry. -/
theorem foldl_lastWrite {α σ β : Type _} (F : σ → α → σ) (g : σ → β)
    (p : α → Bool) (v : α → β)
    (hstep : ∀ s a, g (F s a) = if p a then v a else g s) :
    ∀ (l : List α) (s : σ),
      g (l.foldl F s) = ((l.reverse.find? p).map v).getD (g s) := by
  intro l
  induction l with
  | nil => intro s; simp
  | cons a l ih =>
    intro s
    simp only [List.foldl_cons, List.reverse_cons, List.find?_append]
    rw [ih]
    cases hf : l.reverse.find? p with
    | some x => simp [Option.or]
    | none =>
      cases hpa : p a <;> simp [Option.or, List.find?, hpa, hstep]

/-- The id predicate the extraction loop's calorie assignment answers to. -/
def idPred (i : ℤ) (fn : FoodNutrient) : Bool :=
  fn.amount.isSome && decide (fn.nutrientId = some i)

/-- The name predicate of the `part_001` extraction loop. -/
def namePred (nm : String) (fn : FoodNutrient) : Bool :=
  fn.amount.isSome && decide (strLower fn.nutrientName = nm)

theorem extractStep_calories (s : Nutrients) (fn : FoodNutrient) :
    (ParseJs.extractStep s fn).calories =
      if idPred ParseJs.idCalories fn = true then fn.amount.getD 0 else s.calories := by
  cases hamt : fn.amount with
  | none => simp [ParseJs.extractStep, idPred, hamt]
  | some amt =>
    by_cases hid : fn.nutrientId = some ParseJs.idCalories
    · simp [ParseJs.extractStep, idPred, hamt, hid]
    · simp [ParseJs.extractStep, idPred, hamt, hid, apply_ite Nutrients.calories]

theorem extractStep_protein (s : Nutrients) (fn : FoodNutrient) :
    (ParseJs.extractStep s fn).protein =
      if idPred ParseJs.idProtein fn = true then fn.amount.getD 0 else s.protein := by
  cases hamt : fn.amount with
  | none => simp [ParseJs.extractStep, idPred, hamt]
  | some amt =>
    by_cases hid : fn.nutrientId = some ParseJs.idProtein
    · simp [ParseJs.extractStep, idPred, hamt, hid, ParseJs.idCalories, ParseJs.idProtein]
    · simp [ParseJs.extractStep, idPred, hamt, hid, apply_ite Nutrients.protein]

theorem extractStep_fat (s : Nutrients) (fn : FoodNutrient) :
    (ParseJs.extractStep s fn).fat =
      if idPred ParseJs.idFat fn = true then fn.amount.getD 0 else s.fat := by
  cases hamt : fn.amount with
  | none => simp [ParseJs.extractStep, idPred, hamt]
  | some amt =>
    by_cases hid : fn.nutrientId = some ParseJs.idFat
    · simp [ParseJs.extractStep, idPred, hamt, hid, ParseJs.idCalories, ParseJs.idProtein,
        ParseJs.idFat]
    · simp [ParseJs.extractStep, idPred, hamt, hid, apply_ite Nutrients.fat]

theorem extractStep_carbs (s : Nutrients) (fn : FoodNutrient) :
    (ParseJs.extractStep s fn).carbs =
      if idPred ParseJs.idCarbs fn = true then fn.amount.getD 0 else s.carbs := by
  cases hamt : fn.amount with
  | none => simp [ParseJs.extractStep, idPred, hamt]
  | some amt =>
    by_cases hid : fn.nutrientId = some ParseJs.idCarbs
    · simp [ParseJs.extractStep, idPred, hamt, hid, ParseJs.idCalories, ParseJs.idProtein,
        ParseJs.idFat, ParseJs.idCarbs]
    · simp [ParseJs.extractStep, idPred, hamt, hid, apply_ite Nutrients.carbs]

theorem extractStep_fiber (s : Nutrients) (fn : FoodNutrient) :
    (ParseJs.extractStep s fn).fiber =
      if idPred ParseJs.idFiber fn = true then fn.amount.getD 0 else s.fiber := by
  cases hamt : fn.amount with
  | none => simp [ParseJs.extractStep, idPred, hamt]
  | some amt =>
    by_cases hid : fn.nutrientId = some ParseJs.idFiber
    · simp [ParseJs.extractStep, idPred, hamt, hid, ParseJs.idCalories, ParseJs.idProtein,
        ParseJs.idFat, ParseJs.idCarbs, ParseJs.idFiber]
    · simp [ParseJs.extractStep, idPred, hamt, hid, apply_ite Nutrients.fiber]

theorem extractStep_sodium (s : Nutrients) (fn : FoodNutrient) :
    (ParseJs.extractStep s fn).sodium =
      if idPred ParseJs.idSodium fn = true then fn.amount.getD 0 else s.sodium := by
  cases hamt : fn.amount with
  | none => simp [ParseJs.extractStep, idPred, hamt]
  | some amt =>
    by_cases hid : fn.nutrientId = some ParseJs.idSodium
    · simp [ParseJs.extractStep, idPred, hamt, hid, ParseJs.idCalories, ParseJs.idProtein,
        ParseJs.idFat, ParseJs.idCarbs, ParseJs.idFiber, ParseJs.idSodium]
    · simp [ParseJs.extractStep, idPred, hamt, hid, apply_ite Nutrients.sodium]

theorem extractStep_potassium (s : Nutrients) (fn : FoodNutrient) :
    (ParseJs.extractStep s fn).potassium =
      if idPred ParseJs.idPotassium fn = true then fn.amount.getD 0 else s.potassium := by
  cases hamt : fn.amount with
  | none => simp [ParseJs.extractStep, idPred, hamt]
  | some amt =>
    by_cases hid : fn.nutrientId = some ParseJs.idPotassium
    · simp [ParseJs.extractStep, idPred, hamt, hid, ParseJs.idCalories, ParseJs.idProtein,
        ParseJs.idFat, ParseJs.idCarbs, ParseJs.idFiber, ParseJs.idSodium, ParseJs.idPotassium]
    · simp [ParseJs.extractStep, idPred, hamt, hid, apply_ite Nutrients.potassium]

theorem extractStep_magnesium (s : Nutrients) (fn : FoodNutrient) :
    (ParseJs.extractStep s fn).magnesium =
      if idPred ParseJs.idMagnesium fn = true then fn.amount.getD 0 else s.magnesium := by
  cases hamt : fn.amount with
  | none => simp [ParseJs.extractStep, idPred, hamt]
  | some amt =>
    by_cases hid : fn.nutrientId = some ParseJs.idMagnesium
    · simp [ParseJs.extractStep, idPred, hamt, hid, ParseJs.idCalories, ParseJs.idProtein,
        ParseJs.idFat, ParseJs.idCarbs, ParseJs.idFiber, ParseJs.idSodium, ParseJs.idPotassium,
        ParseJs.idMagnesium]
    · simp [ParseJs.extractStep, idPred, hamt, hid, apply_ite Nutrients.magnesium]

theorem per100Step_energy (s : P1.Per100) (x : FoodNutrient) :
    (P1.per100Step s x).energy_kcal =
      if namePred "energy" x = true
      then some (Spec.kcalConv x (x.amount.getD 0)) else s.energy_kcal := by
  cases hamt : x.amount with
  | none => simp [P1.per100Step, namePred, hamt]
  | some v =>
    by_cases hn : strLower x.nutrientName = "energy"
    · simp [P1.per100Step, namePred, hamt, hn, Spec.kcalConv,
        apply_ite P1.Per100.energy_kcal]
    · simp [P1.per100Step, namePred, hamt, hn, apply_ite P1.Per100.energy_kcal]

theorem per100Step_protein (s : P1.Per100) (x : FoodNutrient) :
    (P1.per100Step s x).protein_g =
      if namePred "protein" x = true
      then some (Spec.gConv x (x.amount.getD 0)) else s.protein_g := by
  cases hamt : x.amount with
  | none => simp [P1.per100Step, namePred, hamt]
  | some v =>
    by_cases hn : strLower x.nutrientName = "protein"
    · simp [P1.per100Step, namePred, hamt, hn, Spec.gConv, apply_ite P1.Per100.protein_g]
    · simp [P1.per100Step, namePred, hamt, hn, apply_ite P1.Per100.protein_g]

theorem per100Step_fat (s : P1.Per100) (x : FoodNutrient) :
    (P1.per100Step s x).fat_g =
      if namePred "total lipid (fat)" x = true
      then some (Spec.gConv x (x.amount.getD 0)) else s.fat_g := by
  cases hamt : x.amount with
  | none => simp [P1.per100Step, namePred, hamt]
  | some v =>
    by_cases hn : strLower x.nutrientName = "total lipid (fat)"
    · simp [P1.per100Step, namePred, hamt, hn, Spec.gConv, apply_ite P1.Per100.fat_g]
    · simp [P1.per100Step, namePred, hamt, hn, apply_ite P1.Per100.fat_g]

theorem per100Step_carbs (s : P1.Per100) (x : FoodNutrient) :
    (P1.per100Step s x).carbs_g =
      if namePred "carbohydrate, by difference" x = true
      then some (Spec.gConv x (x.amount.getD 0)) else s.carbs_g := by
  cases hamt : x.amount with
  | none => simp [P1.per100Step, namePred, hamt]
  | some v =>
    by_cases hn : strLower x.nutrientName = "carbohydrate, by difference"
    · simp [P1.per100Step, namePred, hamt, hn, Spec.gConv, apply_ite P1.Per100.carbs_g]
    · simp [P1.per100Step, namePred, hamt, hn, apply_ite P1.Per100.carbs_g]

theorem per100Step_fiber (s : P1.Per100) (x : FoodNutrient) :
    (P1.per100Step s x).fiber_g =
      if namePred "fiber, total dietary" x = true
      then some (Spec.gConv x (x.amount.getD 0)) else s.fiber_g := by
  cases hamt : x.amount with
  | none => simp [P1.per100Step, namePred, hamt]
  | some v =>
    by_cases hn : strLower x.nutrientName = "fiber, total dietary"
    · simp [P1.per100Step, namePred, hamt, hn, Spec.gConv, apply_ite P1.Per100.fiber_g]
    · simp [P1.per100Step, namePred, hamt, hn, apply_ite P1.Per100.fiber_g]

theorem per100Step_sodium (s : P1.Per100) (x : FoodNutrient) :
    (P1.per100Step s x).sodium_mg =
      if namePred "sodium, na" x = true
      then some (Spec.mgConv x (x.amount.getD 0)) else s.sodium_mg := by
  cases hamt : x.amount with
  | none => simp [P1.per100Step, namePred, hamt]
  | some v =>
    by_cases hn : strLower x.nutrientName = "sodium, na"
    · simp [P1.per100Step, namePred, hamt, hn, Spec.mgConv, apply_ite P1.Per100.sodium_mg]
    · simp [P1.per100Step, namePred, hamt, hn, apply_ite P1.Per100.sodium_mg]

theorem per100Step_potassium (s : P1.Per100) (x : FoodNutrient) :
    (P1.per100Step s x).potassium_mg =
      if namePred "potassium, k" x = true
      then some (Spec.mgConv x (x.amount.getD 0)) else s.potassium_mg := by
  cases hamt : x.amount with
  | none => simp [P1.per100Step, namePred, hamt]
  | some v =>
    by_cases hn : strLower x.nutrientName = "potassium, k"
    · simp [P1.per100Step, namePred, hamt, hn, Spec.mgConv, apply_ite P1.Per100.potassium_mg]
    · simp [P1.per100Step, namePred, hamt, hn, apply_ite P1.Per100.potassium_mg]

theorem per100Step_magnesium (s : P1.Per100) (x : FoodNutrient) :
    (P1.per100Step s x).magnesium_mg =
      if namePred "magnesium, mg" x = true
      then some (Spec.mgConv x (x.amount.getD 0)) else s.magnesium_mg := by
  cases hamt : x.amount with
  | none => simp [P1.per100Step, namePred, hamt]
  | some v =>
    by_cases hn : strLower x.nutrientName = "magnesium, mg"
    · simp [P1.per100Step, namePred, hamt, hn, Spec.mgConv, apply_ite P1.Per100.magnesium_mg]
    · simp [P1.per100Step, namePred, hamt, hn, apply_ite P1.Per100.magnesium_mg]

theorem lastById_via_find (i : ℤ) (fns : List FoodNutrient) :
    Spec.lastById i fns
      = ((fns.reverse.find? (idPred i)).map (fun fn => fn.amount.getD 0)).getD 0 := by
  unfold Spec.lastById idPred
  cases h : fns.reverse.find? (fun fn => fn.amount.isSome && decide (fn.nutrientId = some i)) <;>
    simp [h]

theorem lastByName_via_find (nm : String) (conv : FoodNutrient → ℚ → ℚ)
    (fns : List FoodNutrient) :
    Spec.lastByName nm conv fns
      = ((fns.reverse.find? (namePred nm)).map
          (fun fn => some (conv fn (fn.amount.getD 0)))).getD none := by
  unfold Spec.lastByName namePred
  cases h : fns.reverse.find? (fun fn => fn.amount.isSome && decide (strLower fn.nutrientName = nm)) <;>
    simp [h]

/-- The `parse.js` extractor equals the last-write-by-numeric-id record. -/
theorem extract_eq_lastById (d : FoodDetail) :
    ParseJs.extractNutrientsFromFoodDetails d = Spec.extractById d := by
  unfold ParseJs.extractNutrientsFromFoodDetails Spec.extractById
  refine Nutrients.ext ?_ ?_ ?_ ?_ ?_ ?_ ?_ ?_
  · show _ = Spec.lastById ParseJs.idCalories d.foodNutrients
    rw [foldl_lastWrite ParseJs.extractStep Nutrients.calories _ _ extractStep_calories,
      lastById_via_find]; simp [emptyNutrients]
  · show _ = Spec.lastById ParseJs.idProtein d.foodNutrients
    rw [foldl_lastWrite ParseJs.extractStep Nutrients.protein _ _ extractStep_protein,
      lastById_via_find]; simp [emptyNutrients]
  · show _ = Spec.lastById ParseJs.idFat d.foodNutrients
    rw [foldl_lastWrite ParseJs.extractStep Nutrients.fat _ _ extractStep_fat,
      lastById_via_find]; simp [emptyNutrients]
  · show _ = Spec.lastById ParseJs.idCarbs d.foodNutrients
    rw [foldl_lastWrite ParseJs.extractStep Nutrients.carbs _ _ extractStep_carbs,
      lastById_via_find]; simp [emptyNutrients]
  · show _ = Spec.lastById ParseJs.idFiber d.foodNutrients
    rw [foldl_lastWrite ParseJs.extractStep Nutrients.fiber _ _ extractStep_fiber,
      lastById_via_find]; simp [emptyNutrients]
  · show _ = Spec.lastById ParseJs.idSodium d.foodNutrients
    rw [foldl_lastWrite ParseJs.extractStep Nutrients.sodium _ _ extractStep_sodium,
      lastById_via_find]; simp [emptyNutrients]
  · show _ = Spec.lastById ParseJs.idPotassium d.foodNutrients
    rw [foldl_lastWrite ParseJs.extractStep Nutrients.potassium _ _ extractStep_potassium,
      lastById_via_find]; simp [emptyNutrients]
  · show _ = Spec.lastById ParseJs.idMagnesium d.foodNutrients
    rw [foldl_lastWrite ParseJs.extractStep Nutrients.magnesium _ _ extractStep_magnesium,
      lastById_via_find]; simp [emptyNutrients]

/-- The `part_001` extractor equals the last-write-by-name record. -/
theorem per100_eq_lastByName (d : FoodDetail) :
    P1.nutrientsPer100g d = Spec.extractByName d := by
  unfold P1.nutrientsPer100g Spec.extractByName
  refine P1.Per100.ext ?_ ?_ ?_ ?_ ?_ ?_ ?_ ?_
  · show _ = Spec.lastByName "energy" Spec.kcalConv d.foodNutrients
    rw [foldl_lastWrite P1.per100Step P1.Per100.energy_kcal _ _ per100Step_energy,
      lastByName_via_find]; simp [P1.emptyPer100]
  · show _ = Spec.lastByName "protein" Spec.gConv d.foodNutrients
    rw [foldl_lastWrite P1.per100Step P1.Per100.protein_g _ _ per100Step_protein,
      lastByName_via_find]; simp [P1.emptyPer100]
  · show _ = Spec.lastByName "total lipid (fat)" Spec.gConv d.foodNutrients
    rw [foldl_lastWrite P1.per100Step P1.Per100.fat_g _ _ per100Step_fat,
      lastByName_via_find]; simp [P1.emptyPer100]
  · show _ = Spec.lastByName "carbohydrate, by difference" Spec.gConv d.foodNutrients
    rw [foldl_lastWrite P1.per100Step P1.Per100.carbs_g _ _ per100Step_carbs,
      lastByName_via_find]; simp [P1.emptyPer100]
  · show _ = Spec.lastByName "fiber, total dietary" Spec.gConv d.foodNutrients
    rw [foldl_lastWrite P1.per100Step P1.Per100.fiber_g _ _ per100Step_fiber,
      lastByName_via_find]; simp [P1.emptyPer100]
  · show _ = Spec.lastByName "sodium, na" Spec.mgConv d.foodNutrients
    rw [foldl_lastWrite P1.per100Step P1.Per100.sodium_mg _ _ per100Step_sodium,
      lastByName_via_find]; simp [P1.emptyPer100]
  · show _ = Spec.lastByName "potassium, k" Spec.mgConv d.foodNutrients
    rw [foldl_lastWrite P1.per100Step P1.Per100.potassium_mg _ _ per100Step_potassium,
      lastByName_via_find]; simp [P1.emptyPer100]
  · show _ = Spec.lastByName "magnesium, mg" Spec.mgConv d.foodNutrients
    rw [foldl_lastWrite P1.per100Step P1.Per100.magnesium_mg _ _ per100Step_magnesium,
      lastByName_via_find]; simp [P1.emptyPer100]

theorem insertByScore_ne_nil (f : P1.Food) (l : List P1.Food) :
    P1.insertByScore f l ≠ [] := by
  cases l with
  | nil => simp [P1.insertByScore]
  | cons g gs =>
    unfold P1.insertByScore
    split <;> simp

theorem sortByScoreDesc_eq_nil_iff (l : List P1.Food) :
    P1.sortByScoreDesc l = [] ↔ l = [] := by
  cases l with
  | nil => simp [P1.sortByScoreDesc]
  | cons f fs =>
    simp only [P1.sortByScoreDesc]
    exact ⟨fun h => absurd h (insertByScore_ne_nil f _), fun h => by simp at h⟩

theorem head?_insertByScore (f : P1.Food) (l : List P1.Food) :
    (P1.insertByScore f l).head? =
      some (match l with
            | [] => f
            | g :: _ => if P1.score g ≤ P1.score f then f else g) := by
  cases l with
  | nil => simp [P1.insertByScore]
  | cons g gs =>
    unfold P1.insertByScore
    split <;> rename_i h <;> simp [h]

theorem bestOf_eq_none_iff (l : List P1.Food) : Spec.bestOf l = none ↔ l = [] := by
  cases l with
  | nil => simp [Spec.bestOf]
  | cons f fs =>
    simp only [Spec.bestOf]
    cases Spec.bestOf fs with
    | none => simp
    | some b =>
      show (if P1.score f < P1.score b then some b else some f) = none ↔ f :: fs = []
      split <;> simp

/-- The head of the stably sorted candidate list is the earliest maximal
candidate in the claim's recursive formulation. -/
theorem head?_sortByScoreDesc (l : List P1.Food) :
    (P1.sortByScoreDesc l).head? = Spec.bestOf l := by
  induction l with
  | nil => simp [P1.sortByScoreDesc, Spec.bestOf]
  | cons f fs ih =>
    simp only [P1.sortByScoreDesc, Spec.bestOf]
    rw [head?_insertByScore]
    cases hs : P1.sortByScoreDesc fs with
    | nil =>
      have hfs : fs = [] := (sortByScoreDesc_eq_nil_iff fs).mp hs
      subst hfs
      simp [Spec.bestOf]
    | cons g rest =>
      have hg : Spec.bestOf fs = some g := by
        rw [← ih, hs]; rfl
      rw [hg]
      by_cases hle : P1.score g ≤ P1.score f
      · simp [hle, not_lt.mpr hle]
      · simp [hle, lt_of_not_ge hle]

/-- `bestOf` picks an element that attains the maximal score and precedes
every other maximal-score element. -/
theorem bestOf_spec (l : List P1.Food) (hne : l ≠ []) :
    ∃ (i : ℕ) (hi : i < l.length),
      Spec.bestOf l = some l[i] ∧
      (∀ (j : ℕ) (hj : j < l.length), P1.score l[j] ≤ P1.score l[i]) ∧
      (∀ (j : ℕ) (hj : j < l.length), j < i → P1.score l[j] < P1.score l[i]) := by
  induction l with
  | nil => exact absurd rfl hne
  | cons f fs ih =>
    cases hb : Spec.bestOf fs with
    | none =>
      have hfs : fs = [] := (bestOf_eq_none_iff fs).mp hb
      subst hfs
      refine ⟨0, by simp, by simp [Spec.bestOf], ?_, ?_⟩
      · intro j hj
        have hj0 : j = 0 := by simpa using hj
        subst hj0; simp
      · intro j hj hj0; omega
    | some b =>
      have hfs : fs ≠ [] := fun h => by subst h; simp [Spec.bestOf] at hb
      obtain ⟨i, hi, hbi, hmax, hearly⟩ := ih hfs
      have hbval : b = fs[i] := by rw [hb] at hbi; injection hbi
      subst hbval
      by_cases hlt : P1.score f < P1.score fs[i]
      · refine ⟨i + 1, by simp; omega, ?_, ?_, ?_⟩
        · simp only [Spec.bestOf, hb, List.getElem_cons_succ]
          simp [hlt]
        · intro j hj
          cases j with
          | zero =>
            simp only [List.getElem_cons_zero, List.getElem_cons_succ]
            exact le_of_lt hlt
          | succ j =>
            simp only [List.getElem_cons_succ]
            exact hmax j (by simp at hj; omega)
        · intro j hj hji
          cases j with
          | zero =>
            simp only [List.getElem_cons_zero, List.getElem_cons_succ]
            exact hlt
          | succ j =>
            simp only [List.getElem_cons_succ]
            exact hearly j (by simp at hj; omega) (by omega)
      · refine ⟨0, by simp, ?_, ?_, ?_⟩
        · simp only [Spec.bestOf, hb, List.getElem_cons_zero]
          simp [hlt]
        · intro j hj
          cases j with
          | zero => simp
          | succ j =>
            simp only [List.getElem_cons_zero, List.getElem_cons_succ]
            exact le_trans (hmax j (by simp at hj; omega)) (not_lt.mp hlt)
        · intro j hj hj0; omega

/-- The `item.count || 1` multiplier is positive whenever a present count
is positive (the upstream sanitizer clamps counts into [0.25, 50]). -/
theorem countOr1_pos (item : P1.Item) (hc : ∀ c, item.count = some c → 0 < c) :
    0 < P1.countOr1 item := by
  unfold P1.countOr1 clampNumber jsOrQ
  cases h : item.count with
  | none => simp
  | some c =>
    have hcpos := hc c h
    simp only [Option.getD_some]
    split
    · norm_num
    · exact hcpos

/-- The serving-size gram test of `parse.js` collapses to the substring
test: equality with a gram word already implies containing `"g"`. -/
theorem gramish_iff (u : String) :
    (strIncludes u "g" = true ∨ u = "g" ∨ u = "gram" ∨ u = "grams")
      ↔ strIncludes u "g" = true := by
  constructor
  · rintro (h | h | h | h)
    · exact h
    all_goals subst h; decide
  · exact fun h => Or.inl h

/-! Claim theorems. -/

/-- C10: aggregating the empty item list yields the all-zero totals
profile, in both the API handler's `sumItems` and the dashboard's `sum`. -/
theorem C10_empty_sum_zero :
    P1.sumItems [] = emptyNutrients ∧ P4.sum [] = emptyNutrients := by
  constructor
  · simp [P1.sumItems, emptyNutrients, jsRound1_zero]
  · rfl

/-- C9: with net carbs = max(0, carbs − fiber), the protein-deficit
warning fires exactly when protein < 145 and more than 2 items are logged,
the net-carbs-excess warning exactly when net carbs exceed 40, and the
net-carbs-deficit warning exactly when net carbs are strictly positive and
below 30; the three conditions are evaluated independently on the same
totals, so any subset can fire concurrently. -/
theorem C9_advisories (t : Nutrients) (n : ℕ) :
    P4.netCarbs t = max 0 (t.carbs - t.fiber) ∧
    ((P4.Warning.proteinLow (jsRound1 t.protein) (jsRound1 (145 - t.protein)) ∈ P4.warns t n)
      ↔ (t.protein < 145 ∧ 2 < n)) ∧
    ((P4.Warning.netCarbsHigh (jsRound1 (P4.netCarbs t)) ∈ P4.warns t n)
      ↔ 40 < P4.netCarbs t) ∧
    ((P4.Warning.netCarbsLow (jsRound1 (P4.netCarbs t)) ∈ P4.warns t n)
      ↔ (0 < P4.netCarbs t ∧ P4.netCarbs t < 30)) := by
  refine ⟨rfl, ?_, ?_, ?_⟩ <;>
  · unfold P4.warns
    split_ifs <;> simp_all

/-- C1 (amended): in `parse.js` the scaling multiplies each of the eight
fields by grams/100 and rounds once at the end — calories, sodium,
potassium and magnesium to the nearest integer and protein, fat, carbs and
fiber to one decimal place — while the `part_001`/`part_002` variant's
`scale` instead rounds ALL eight fields to one decimal place. -/
theorem C1_scaling_rounds_once (per100 : Nutrients) (p : P1.Per100) (grams : ℚ)
    (h : 0 ≤ grams) :
    ParseJs.roundScaled (ParseJs.scaleNutrients per100 (grams / 100))
      = Spec.scaleResolved per100 grams ∧
    P1.scale p grams = Spec.scaleAllOneDecimal p grams := by
  constructor <;> rfl

theorem C1_scaling_rounds_once_witness :
    (0 : ℚ) ≤ 50 ∧
    (ParseJs.roundScaled (ParseJs.scaleNutrients emptyNutrients (50 / 100))
        = Spec.scaleResolved emptyNutrients 50 ∧
      P1.scale P1.emptyPer100 50 = Spec.scaleAllOneDecimal P1.emptyPer100 50) :=
  ⟨by norm_num, C1_scaling_rounds_once emptyNutrients P1.emptyPer100 50 (by norm_num)⟩

/-- C1 counterexample: on the cited `part_001` `scale`, a 1 kcal/100g
profile scaled to 50 g yields 0.5 calories (one-decimal rounding), whereas
the claimed nearest-integer rounding of 1 × 50/100 gives 1. -/
theorem C1_counterexample :
    (P1.scale oneKcal 50).calories = 1 / 2 ∧
    jsRound0 ((1 : ℚ) * (50 / 100)) = 1 ∧
    (P1.scale oneKcal 50).calories ≠ jsRound0 ((1 : ℚ) * (50 / 100)) := by
  have h1 : (P1.scale oneKcal 50).calories = 1 / 2 := by
    simp [P1.scale, oneKcal, jsRound1]
    norm_num [round_eq]
  have h2 : jsRound0 ((1 : ℚ) * (50 / 100)) = 1 := by
    norm_num [jsRound0, round_eq]
  exact ⟨h1, h2, by rw [h1, h2]; norm_num⟩

/-- C2 (amended): aggregation field-wise sums the items' stored values and
rounds each of the eight fields once more — but to ONE DECIMAL place for
every field, not the nearest-integer rule for
calories/sodium/potassium/magnesium. -/
theorem C2_aggregate_rounds_once (items : List Nutrients) :
    P1.sumItems items = Spec.aggregateOneDecimal items := by
  unfold P1.sumItems Spec.aggregateOneDecimal
  rw [foldl_addNutrients]
  simp [emptyNutrients]

/-- C2 counterexample: (a) a single stored item with 1.5 calories
aggregates to 1.5, while the claimed integer rounding of the summed
calories gives 2; (b) two items scaled from 0.25 g of raw carbs each
(stored as 0.3 g) aggregate to 0.6 g carbs, while rounding the raw sum
0.5 once — as the claim requires — gives 0.5. -/
theorem C2_counterexample :
    (P1.sumItems [calItem]).calories = 3 / 2 ∧
    (Spec.aggregateClaim [calItem]).calories = 2 ∧
    (P1.sumItems [calItem]).calories ≠ (Spec.aggregateClaim [calItem]).calories ∧
    (P1.sumItems [P1.scale quarterCarbs 100, P1.scale quarterCarbs 100]).carbs = 3 / 5 ∧
    jsRound1 ((1 / 4 : ℚ) + 1 / 4) = 1 / 2 ∧
    (P1.sumItems [P1.scale quarterCarbs 100, P1.scale quarterCarbs 100]).carbs
      ≠ jsRound1 ((1 / 4 : ℚ) + 1 / 4) := by
  have h1 : (P1.sumItems [calItem]).calories = 3 / 2 := by
    simp [P1.sumItems, calItem, addNutrients, emptyNutrients]
    norm_num [jsRound1, round_eq]
  have h2 : (Spec.aggregateClaim [calItem]).calories = 2 := by
    simp [Spec.aggregateClaim, calItem]
    norm_num [jsRound0, round_eq]
  have hcarb : (P1.scale quarterCarbs 100).carbs = 3 / 10 := by
    simp [P1.scale, quarterCarbs]
    norm_num [jsRound1, round_eq]
  have h4 : (P1.sumItems [P1.scale quarterCarbs 100, P1.scale quarterCarbs 100]).carbs = 3 / 5 := by
    simp [P1.sumItems, addNutrients, emptyNutrients, hcarb]
    norm_num [jsRound1, round_eq, hcarb]
  have h5 : jsRound1 ((1 / 4 : ℚ) + 1 / 4) = 1 / 2 := by
    norm_num [jsRound1, round_eq]
  exact ⟨h1, h2, by rw [h1, h2]; norm_num, h4, h5, by rw [h4, h5]; norm_num⟩

/-- C5 (amended): `unitToGrams` equals the table-lookup contract — 0 for a
zero or non-finite quantity and for any unit outside the table, otherwise
quantity × factor; a NEGATIVE quantity is not zeroed but passes through
the table. -/
theorem C5_unit_conversion (q : Option ℚ) (u : String) :
    ParseJs.unitToGrams q u = Spec.toGramsAmended q u := by
  cases q with
  | none => simp [ParseJs.unitToGrams, Spec.toGramsAmended, clampNumber]
  | some qv =>
    by_cases h0 : qv = 0
    · simp [ParseJs.unitToGrams, Spec.toGramsAmended, clampNumber, h0]
    · unfold ParseJs.unitToGrams Spec.toGramsAmended Spec.unitFactor clampNumber
      simp only [Option.getD_some, if_neg h0]
      split_ifs <;> simp <;> ring

/-- C5 counterexample: the claim says a quantity ≤ 0 yields 0, but
`unitToGrams(-5, "g")` returns −5. -/
theorem C5_counterexample :
    (-5 : ℚ) ≤ 0 ∧ ParseJs.unitToGrams (some (-5)) "g" = -5 ∧
    ParseJs.unitToGrams (some (-5)) "g" ≠ 0 := by
  have hu : strLower (strTrim "g") = "g" := by decide
  have h1 : ParseJs.unitToGrams (some (-5)) "g" = -5 := by
    norm_num [ParseJs.unitToGrams, clampNumber, hu]
  exact ⟨by norm_num, h1, by rw [h1]; norm_num⟩

/-- C3 (amended): `parse.js` determines the consumed mass as the Unit
Converter's result if nonzero, else serving size × quantity when the
serving-size unit string contains `"g"`, else a flat `quantity × 100`; it
has no explicit-grams step and never calls the Mass Estimator.  The
`part_001` handler instead uses the item's explicit grams when present and
otherwise the Mass Estimator directly, consulting neither the Unit
Converter nor the serving size. -/
theorem C3_mass_determination (quantity : ℚ) (unit : String) (details : FoodDetail)
    (it : P1.Item) :
    ParseJs.determineGrams quantity unit details = Spec.parseMassAmended quantity unit details ∧
    P1.massFor it = (match it.grams with
                     | some g => g
                     | none => P1.estimateGrams it) := by
  constructor
  · simp only [ParseJs.determineGrams, Spec.parseMassAmended]
    by_cases hconv : ParseJs.unitToGrams (some quantity) unit = 0
    · rw [if_pos hconv, if_neg (not_not_intro hconv)]
      exact if_congr (and_congr_right fun _ => gramish_iff _) rfl rfl
    · rw [if_neg hconv, if_pos hconv]
  · unfold P1.massFor
    cases it.grams <;> rfl

/-- C3 counterexample: for "3 eggs" with no serving size, the claimed
order ends at the Mass Estimator (150 g) but `parse.js` computes a flat
`quantity × 100 = 300` g; for "2 oz" without explicit grams, the claimed
order uses the Unit Converter (≈56.7 g) but the `part_001` handler calls
the Mass Estimator and gets 100 g. -/
theorem C3_counterexample :
    ParseJs.determineGrams 3 "egg" bareDetail = 300 ∧
    Spec.claimMassOrder none 3 "egg" bareDetail (P1.estimateGrams eggItem) = 150 ∧
    ParseJs.determineGrams 3 "egg" bareDetail
      ≠ Spec.claimMassOrder none 3 "egg" bareDetail (P1.estimateGrams eggItem) ∧
    P1.massFor ozItem = 100 ∧
    Spec.claimMassOrder none 2 "oz" bareDetail (P1.estimateGrams ozItem)
      = 2 * ParseJs.OZ_TO_G ∧
    P1.massFor ozItem ≠ Spec.claimMassOrder none 2 "oz" bareDetail (P1.estimateGrams ozItem) := by
  have huegg : strLower (strTrim "egg") = "egg" := by decide
  have hconv0 : ParseJs.unitToGrams (some 3) "egg" = 0 := by
    simp [ParseJs.unitToGrams, clampNumber, huegg]
  have h1 : ParseJs.determineGrams 3 "egg" bareDetail = 300 := by
    norm_num [ParseJs.determineGrams, hconv0, bareDetail, clampNumber]
  have hegg : strIncludes (P1.unitTextOf eggItem) "egg" = true := by decide
  have hest : P1.estimateGrams eggItem = 150 := by
    rw [P1.estimateGrams, if_pos (Or.inl hegg)]
    norm_num [P1.countOr1, eggItem, clampNumber, jsOrQ]
  have h2 : Spec.claimMassOrder none 3 "egg" bareDetail (P1.estimateGrams eggItem) = 150 := by
    simp [Spec.claimMassOrder, hconv0, bareDetail, hest]
  have hoznotegg : strIncludes (P1.unitTextOf ozItem) "egg" = false := by decide
  have hqnotegg : strIncludes (P1.queryTextOf ozItem) "egg" = false := by decide
  have hoznottbsp : strIncludes (P1.unitTextOf ozItem) "tbsp" = false := by decide
  have hoznottbsp2 : strIncludes (P1.unitTextOf ozItem) "tablespoon" = false := by decide
  have hqnottbsp : strIncludes (P1.queryTextOf ozItem) "tablespoon" = false := by decide
  have hoznotcup : strIncludes (P1.unitTextOf ozItem) "cup" = false := by decide
  have hqnotcup : strIncludes (P1.queryTextOf ozItem) "cup" = false := by decide
  have hoz : P1.estimateGrams ozItem = 100 := by
    rw [P1.estimateGrams]
    simp [hoznotegg, hqnotegg, hoznottbsp, hoznottbsp2, hqnottbsp, hoznotcup, hqnotcup]
  have h4 : P1.massFor ozItem = 100 := by
    unfold P1.massFor
    show (none : Option ℚ).getD (P1.estimateGrams ozItem) = 100
    rw [Option.getD_none, hoz]
  have huoz : strLower (strTrim "oz") = "oz" := by decide
  have hconvoz : ParseJs.unitToGrams (some 2) "oz" = 2 * ParseJs.OZ_TO_G := by
    simp [ParseJs.unitToGrams, clampNumber, huoz]
  have h5 : Spec.claimMassOrder none 2 "oz" bareDetail (P1.estimateGrams ozItem)
      = 2 * ParseJs.OZ_TO_G := by
    have hne : ParseJs.unitToGrams (some 2) "oz" ≠ 0 := by
      rw [hconvoz]; norm_num [ParseJs.OZ_TO_G]
    simp only [Spec.claimMassOrder]
    rw [if_pos hne, hconvoz]
  refine ⟨h1, h2, ?_, h4, h5, ?_⟩
  · rw [h1, h2]; norm_num
  · rw [h4, h5]; norm_num [ParseJs.OZ_TO_G]

/-- C6 (amended): the `part_001` estimator evaluates its rules in priority
order — "egg" matched against the unit or query/name text gives
50 × count; otherwise "tbsp" matched against the UNIT text only (while
"tablespoon" is matched against unit or query text) gives 15 × count;
otherwise "cup" in unit or query text gives 30 × count when the QUERY text
also contains "spinach" and 245 × count otherwise; anything else gives a
flat 100 — and the result is positive whenever a present count is
positive (count defaults to 1 when absent or zero). -/
theorem C6_estimator (item : P1.Item) (hc : ∀ c, item.count = some c → 0 < c) :
    ((strIncludes (P1.unitTextOf item) "egg" ∨ strIncludes (P1.queryTextOf item) "egg") →
      P1.estimateGrams item = 50 * P1.countOr1 item) ∧
    (¬(strIncludes (P1.unitTextOf item) "egg" ∨ strIncludes (P1.queryTextOf item) "egg") →
      (strIncludes (P1.unitTextOf item) "tbsp" ∨ strIncludes (P1.unitTextOf item) "tablespoon"
        ∨ strIncludes (P1.queryTextOf item) "tablespoon") →
      P1.estimateGrams item = 15 * P1.countOr1 item) ∧
    (¬(strIncludes (P1.unitTextOf item) "egg" ∨ strIncludes (P1.queryTextOf item) "egg") →
      ¬(strIncludes (P1.unitTextOf item) "tbsp" ∨ strIncludes (P1.unitTextOf item) "tablespoon"
        ∨ strIncludes (P1.queryTextOf item) "tablespoon") →
      (strIncludes (P1.unitTextOf item) "cup" ∨ strIncludes (P1.queryTextOf item) "cup") →
      P1.estimateGrams item = (if strIncludes (P1.queryTextOf item) "spinach"
        then 30 * P1.countOr1 item else 245 * P1.countOr1 item)) ∧
    (¬(strIncludes (P1.unitTextOf item) "egg" ∨ strIncludes (P1.queryTextOf item) "egg") →
      ¬(strIncludes (P1.unitTextOf item) "tbsp" ∨ strIncludes (P1.unitTextOf item) "tablespoon"
        ∨ strIncludes (P1.queryTextOf item) "tablespoon") →
      ¬(strIncludes (P1.unitTextOf item) "cup" ∨ strIncludes (P1.queryTextOf item) "cup") →
      P1.estimateGrams item = 100) ∧
    0 < P1.estimateGrams item := by
  have hpos : 0 < P1.countOr1 item := countOr1_pos item hc
  refine ⟨?_, ?_, ?_, ?_, ?_⟩
  · intro h
    unfold P1.estimateGrams
    rw [if_pos h]
  · intro h1 h2
    unfold P1.estimateGrams
    rw [if_neg h1, if_pos h2]
  · intro h1 h2 h3
    unfold P1.estimateGrams
    rw [if_neg h1, if_neg h2, if_pos h3]
  · intro h1 h2 h3
    unfold P1.estimateGrams
    rw [if_neg h1, if_neg h2, if_neg h3]
  · unfold P1.estimateGrams
    split_ifs <;> first
      | exact mul_pos (by norm_num) hpos
      | norm_num

theorem C6_estimator_witness :
    (∀ c, eggItem.count = some c → 0 < c) ∧ 0 < P1.estimateGrams eggItem := by
  have hc : ∀ c, eggItem.count = some c → 0 < c := by
    intro c h
    have : (3 : ℚ) = c := by simpa [eggItem] using h
    rw [← this]; norm_num
  exact ⟨hc, (C6_estimator eggItem hc).2.2.2.2⟩

/-- C6 counterexample: the claim says any item whose (unit + name/query)
text contains "tbsp" yields 15 × count, but `estimateGrams` only matches
"tbsp" in the unit text: an item with query "tbsp butter", no unit and
count 2 returns the flat 100, not 30.  The `lib/normalize.js` variant
breaks the claim differently: for a generic "snack" item it returns null
rather than the claimed flat 100. -/
theorem C6_counterexample :
    strIncludes (P1.queryTextOf tbspItem) "tbsp" = true ∧
    P1.estimateGrams tbspItem = 100 ∧
    P1.countOr1 tbspItem = 2 ∧
    P1.estimateGrams tbspItem ≠ 15 * P1.countOr1 tbspItem ∧
    NormalizeJs.estimateGrams snackItem = none := by
  have ht : strIncludes (P1.queryTextOf tbspItem) "tbsp" = true := by decide
  have h1 : strIncludes (P1.unitTextOf tbspItem) "egg" = false := by decide
  have h2 : strIncludes (P1.queryTextOf tbspItem) "egg" = false := by decide
  have h3 : strIncludes (P1.unitTextOf tbspItem) "tbsp" = false := by decide
  have h4 : strIncludes (P1.unitTextOf tbspItem) "tablespoon" = false := by decide
  have h5 : strIncludes (P1.queryTextOf tbspItem) "tablespoon" = false := by decide
  have h6 : strIncludes (P1.unitTextOf tbspItem) "cup" = false := by decide
  have h7 : strIncludes (P1.queryTextOf tbspItem) "cup" = false := by decide
  have hest : P1.estimateGrams tbspItem = 100 := by
    unfold P1.estimateGrams
    simp [h1, h2, h3, h4, h5, h6, h7]
  have hcnt : P1.countOr1 tbspItem = 2 := by
    simp [P1.countOr1, tbspItem, clampNumber, jsOrQ]
  have hsu : strLower (snackItem.unit.getD "") = "serving" := by decide
  have hsn : strIncludes (strLower (snackItem.name.getD "")) "egg" = false := by decide
  have hsnack : NormalizeJs.estimateGrams snackItem = none := by
    unfold NormalizeJs.estimateGrams
    simp [hsu, hsn]
  refine ⟨ht, hest, hcnt, ?_, hsnack⟩
  rw [hest, hcnt]; norm_num

/-- C4 (amended): the `parse.js` extractor identifies nutrients by stable
numeric id — each tracked field holds the amount of the last finite-amount
entry with the matching id, ids outside the tracked eight are ignored and
non-finite amounts are skipped — but it performs NO unit conversion
(amounts are used as reported).  The `part_001` variant identifies
nutrients by lowercased free-text NAME instead of numeric id, divides
kJ-reported energy by 4.184, and multiplies sodium/potassium/magnesium by
1000 whenever their reported unit is not `mg`. -/
theorem C4_extraction (d : FoodDetail) :
    ParseJs.extractNutrientsFromFoodDetails d = Spec.extractById d ∧
    P1.nutrientsPer100g d = Spec.extractByName d :=
  ⟨extract_eq_lastById d, per100_eq_lastByName d⟩

/-- C4 counterexample: a 418.4 kJ energy entry under the stable id 1008 is
taken as 418.4 kcal by the `parse.js` extractor — the claimed ÷4.184
conversion (which would give 100) never happens; and the `part_001`
variant misses a protein entry carrying id 1003 under a non-standard name,
leaving the field unset, so identification is not by numeric id. -/
theorem C4_counterexample :
    (ParseJs.extractNutrientsFromFoodDetails kjDetail).calories = 2092 / 5 ∧
    (2092 / 5 : ℚ) / 4.184 = 100 ∧
    (ParseJs.extractNutrientsFromFoodDetails kjDetail).calories ≠ (2092 / 5 : ℚ) / 4.184 ∧
    (P1.nutrientsPer100g oddDetail).protein_g = none ∧
    (P1.nutrientsPer100g oddDetail).protein_g ≠ some 10 := by
  have h1 : (ParseJs.extractNutrientsFromFoodDetails kjDetail).calories = 2092 / 5 := by
    simp [ParseJs.extractNutrientsFromFoodDetails, kjDetail, kjEntry, ParseJs.extractStep,
      ParseJs.idCalories, emptyNutrients]
  have h2 : (2092 / 5 : ℚ) / 4.184 = 100 := by norm_num
  have hname : strLower oddNameProtein.nutrientName = "protein x" := by decide
  have h4 : (P1.nutrientsPer100g oddDetail).protein_g = none := by
    simp [P1.nutrientsPer100g, oddDetail, oddNameProtein, P1.per100Step, hname, P1.emptyPer100,
      apply_ite P1.Per100.protein_g]
    decide
  refine ⟨h1, h2, ?_, h4, ?_⟩
  · rw [h1, h2]; norm_num
  · rw [h4]; simp

/-- C7: `pickBestFood` returns null on the empty list; on a non-empty list
it returns the candidate with the maximal score — +6 for a data-type tag
containing "foundation", +5 for "sr", +4 for "survey", +2 for "branded",
+1 for nonempty nutrient data, summed — and among equal maximal scores the
candidate earliest in the input order (stable tie-break). -/
theorem C7_pick_best :
    P1.pickBestFood [] = none ∧
    ∀ (foods : List P1.Food), foods ≠ [] →
      ∃ (i : ℕ) (hi : i < foods.length),
        P1.pickBestFood foods = some foods[i] ∧
        (∀ (j : ℕ) (hj : j < foods.length), P1.score foods[j] ≤ P1.score foods[i]) ∧
        (∀ (j : ℕ) (hj : j < foods.length), j < i → P1.score foods[j] < P1.score foods[i]) := by
  constructor
  · rfl
  · intro foods hne
    obtain ⟨i, hi, hbest, hmax, hearly⟩ := bestOf_spec foods hne
    refine ⟨i, hi, ?_, hmax, hearly⟩
    rw [P1.pickBestFood, head?_sortByScoreDesc, hbest]

theorem C7_pick_best_witness :
    ([brandedFood, foundationFood, srFood] : List P1.Food) ≠ [] ∧
    (∃ (i : ℕ) (hi : i < ([brandedFood, foundationFood, srFood] : List P1.Food).length),
      P1.pickBestFood [brandedFood, foundationFood, srFood]
          = some ([brandedFood, foundationFood, srFood][i]) ∧
      (∀ (j : ℕ) (hj : j < ([brandedFood, foundationFood, srFood] : List P1.Food).length),
        P1.score ([brandedFood, foundationFood, srFood][j])
          ≤ P1.score ([brandedFood, foundationFood, srFood][i])) ∧
      (∀ (j : ℕ) (hj : j < ([brandedFood, foundationFood, srFood] : List P1.Food).length),
        j < i → P1.score ([brandedFood, foundationFood, srFood][j])
          < P1.score ([brandedFood, foundationFood, srFood][i]))) :=
  ⟨by simp, C7_pick_best.2 [brandedFood, foundationFood, srFood] (by simp)⟩

/-- C8: when the search yields no usable candidate (no hit, or a hit
without a truthy `fdcId`), the `part_001` handler emits a zero-valued item
noted "No USDA match" at that position, keeps every other item (the output
list has the same length as the input, so the batch continues and
succeeds), and `parse.js`'s per-item resolver likewise returns a zero
profile tagged `"usda:none"` instead of raising. -/
theorem C8_no_candidate (search : P1.Item → List P1.Food) (details : ℤ → FoodDetail)
    (items : List P1.Item) (i : ℕ) (it : P1.Item)
    (top : Option ParseJs.SearchFood) (d : FoodDetail) (pit : ParseJs.PItem)
    (hit : items[i]? = some it)
    (hno : P1.usableFdcOf (P1.pickBestFood (search it)) = none)
    (hnone : ParseJs.usableFdc top = none) :
    (P1.handlerItems search details items).length = items.length ∧
    (P1.handlerItems search details items)[i]? = some (P1.noMatchItem it) ∧
    P1.noMatchItem it
      = { name := it.name, nutrients := emptyNutrients, note := some "No USDA match" } ∧
    ParseJs.nutrientsForItemViaUsda top d pit
      = { name := pit.name, nutrients := emptyNutrients, source := "usda:none" } := by
  refine ⟨by simp [P1.handlerItems], ?_, rfl, ?_⟩
  · simp [P1.handlerItems, List.getElem?_map, hit, P1.resolveOne, hno]
  · unfold ParseJs.nutrientsForItemViaUsda
    rw [hnone]

theorem C8_no_candidate_witness :
    ([eggItem, tbspItem] : List P1.Item)[0]? = some eggItem ∧
    P1.usableFdcOf (P1.pickBestFood ((fun _ => []) eggItem)) = none ∧
    ParseJs.usableFdc none = none ∧
    ((P1.handlerItems (fun _ => []) (fun _ => bareDetail) [eggItem, tbspItem]).length
        = ([eggItem, tbspItem] : List P1.Item).length ∧
      (P1.handlerItems (fun _ => []) (fun _ => bareDetail) [eggItem, tbspItem])[0]?
        = some (P1.noMatchItem eggItem) ∧
      P1.noMatchItem eggItem
        = { name := eggItem.name, nutrients := emptyNutrients, note := some "No USDA match" } ∧
      ParseJs.nutrientsForItemViaUsda none bareDetail
          { name := "eggs", quantity := some 3, unit := some "egg" }
        = { name := ({ name := "eggs", quantity := some 3, unit := some "egg" } : ParseJs.PItem).name,
            nutrients := emptyNutrients, source := "usda:none" }) :=
  ⟨rfl, rfl, rfl,
    C8_no_candidate (fun _ => []) (fun _ => bareDetail) [eggItem, tbspItem] 0 eggItem
      none bareDetail { name := "eggs", quantity := some 3, unit := some "egg" }
      rfl rfl rfl⟩
